import Mathlib

/-!
Verification of the "Madame of the Moon" tarot backend (src/main.py).

The backend stores one document per session in a Mongo collection
`db["session"]`.  We embed the collection shallowly as an association
list from session identifiers to documents.  A document may lack the
`count` / timestamp fields (Mongo documents are free-form), so those
fields are `Option`-valued; `doc.get("count", d)` becomes `Option.getD`.
Timestamps (`datetime.now`) and the pseudo-random choices of
`random.sample` / `random.choice` are passed in as explicit parameters,
and the driver quirk "find_one_and_update may return None on some
drivers with upsert" (comment at src/main.py:97) is modelled by a
Boolean parameter saying whether the driver hands back the updated
document.
-/

namespace Oracle

/-- A document of the `session` collection: `count`, `created_at`,
`updated_at` fields, each possibly absent.  The `session_id` field is
the association-list key and is not repeated inside the document. -/
structure SessionDoc where
  count : Option Int
  created_at : Option Nat
  updated_at : Option Nat
deriving DecidableEq, Repr

/-- The `session` collection: documents keyed by `session_id`. -/
abbrev Store : Type := List (String × SessionDoc)

/-- Model of `db["session"].find_one({"session_id": sid})`: first document whose
key matches. -/
def find_one : Store → String → Option SessionDoc
  | [], _ => none
  | (k, d) :: rest, sid => if k = sid then some d else find_one rest sid

/-- Rewrite the first document whose key matches; leave the rest alone.
This is how a Mongo update with a unique filter acts on the collection. -/
def updateFirst : Store → String → (SessionDoc → SessionDoc) → Store
  | [], _, _ => []
  | (k, d) :: rest, sid, f =>
    if k = sid then (k, f d) :: rest else (k, d) :: updateFirst rest sid f

/-- Effect of the update document
`{"$inc": {"count": 1}, "$setOnInsert": {"created_at": now}, "$set": {"updated_at": now}}`
on an existing document: `$inc` on a missing field treats it as 0,
`$setOnInsert` is a no-op outside an insert, `$set` overwrites. -/
def applyIncUpdate (now : Nat) (d : SessionDoc) : SessionDoc :=
  { count := some (d.count.getD 0 + 1), created_at := d.created_at, updated_at := some now }

/-- The document materialised by the same update when the upsert inserts:
the filter contributes the key, `$inc` creates `count` at 1, `$setOnInsert`
and `$set` fill both timestamps. -/
def insertedIncDoc (now : Nat) : SessionDoc :=
  { count := some 1, created_at := some now, updated_at := some now }

/-- Model of `db["session"].find_one_and_update(..., upsert=True, return_document=True)`
at src/main.py:91-96: atomically update-or-insert and hand back the
document after the update, together with the new collection state. -/
def find_one_and_update (s : Store) (sid : String) (now : Nat) : SessionDoc × Store :=
  match find_one s sid with
  | some d => (applyIncUpdate now d, updateFirst s sid (applyIncUpdate now))
  | none => (insertedIncDoc now, s ++ [(sid, insertedIncDoc now)])

/-- src/main.py:84-86, `get_session_count`: plain read, defaulting a
missing document or a missing `count` field to 0. -/
def get_session_count (s : Store) (sid : String) : Int :=
  match find_one s sid with
  | some doc => doc.count.getD 0
  | none => 0

/-- src/main.py:98-101 as a pure function of the return value of the driver
and of the readback `find_one`: if the driver returned a document, take
its `count` (default 1); otherwise fall back to the `count` of the readback document (default 1), or to 1 when even that is absent. -/
def increment_result_count (result : Option SessionDoc) (readback : Option SessionDoc) : Int :=
  match result with
  | some r => r.count.getD 1
  | none =>
    match readback with
    | some doc => doc.count.getD 1
    | none => 1

/-- src/main.py:89-101, `increment_session_count`: atomic upsert-and-
increment, then recover the new count, falling back to a plain read when
the driver reports no result (`driverReturns = false`). -/
def increment_session_count (s : Store) (sid : String) (now : Nat) (driverReturns : Bool) :
    Int × Store :=
  let r := find_one_and_update s sid now
  let result : Option SessionDoc := if driverReturns then some r.1 else none
  (increment_result_count result (find_one r.2 sid), r.2)

/-- Response of `POST /api/activate` (src/main.py:159-162). -/
structure ActivateResponse where
  phrase : String
  status : String
deriving DecidableEq, Repr

/-- The fixed acknowledgment returned by `activate` on every call. -/
def activateAck : ActivateResponse :=
  { phrase := "The oracle is awakened. The first card already vibrates between the veils.",
    status := "ready" }

/-- src/main.py:147-162, `activate`: look the session up, insert a
`count = 0` document with both timestamps when absent, and return the
fixed acknowledgment either way. -/
def activate (s : Store) (sid : String) (now : Nat) : ActivateResponse × Store :=
  match find_one s sid with
  | some _ => (activateAck, s)
  | none =>
    (activateAck,
      s ++ [(sid, { count := some 0, created_at := some now, updated_at := some now })])

/-- One entry of `TAROT_DECK` (src/main.py:32-81). -/
structure Card where
  name : String
  symbol : String
  meaning : String
  whisper : String
deriving DecidableEq, Repr

/-- src/main.py:32-81: the fixed 8-entry deck. -/
def TAROT_DECK : List Card :=
  [ { name := "The Moon", symbol := "🌙",
      meaning := "intuition, dreams, hidden waters",
      whisper := "Trust the tide beneath the mind." },
    { name := "The Star", symbol := "✨",
      meaning := "healing, hope, luminous guidance",
      whisper := "A silver thread is guiding you home." },
    { name := "The Tower", symbol := "🗼",
      meaning := "revelation, rupture, divine reset",
      whisper := "What falls was never yours to carry." },
    { name := "The Empress", symbol := "🌿",
      meaning := "creation, sweetness, fertile ground",
      whisper := "What you tend will bloom." },
    { name := "The Magician", symbol := "🜂",
      meaning := "will, craft, manifestation",
      whisper := "As within, so without — choose and conjure." },
    { name := "Death", symbol := "🦋",
      meaning := "transmutation, ending, sacred molt",
      whisper := "Shed the husk; the wings are ready." },
    { name := "The Lovers", symbol := "💫",
      meaning := "union, choice, mirrored flame",
      whisper := "What you vow to becomes you." },
    { name := "The Hermit", symbol := "🕯️",
      meaning := "solitude, lantern, inner path",
      whisper := "Go inward; there is a door only you can open." } ]

/-- Model of `random.sample(deck, k)` with the random positions made explicit:
each index (taken modulo the remaining length) selects one entry, which
is then removed before the next pick, so the draw is without
replacement.  Every outcome of `random.sample` arises from some index
list, and every index list yields a valid sample. -/
def sample : List Card → List Nat → List Card
  | _, [] => []
  | [], _ :: _ => []
  | d :: ds, i :: rest =>
    let n := i % (d :: ds).length
    (d :: ds).getD n d :: sample ((d :: ds).eraseIdx n) rest

/-- The success payload of `POST /api/read`
(src/main.py:205, `{"cards": cards, "message": text, **cta}`): exactly
the fields `cards`, `message`, `cta`, `cta_sub`. -/
structure Reading where
  cards : List Card
  message : String
  cta : String
  cta_sub : String
deriving DecidableEq, Repr

/-- The 2-option address-form pool of src/main.py:167, with
`random.choice` made an explicit Boolean. -/
def addressForm (b : Bool) : String :=
  if b then "child of the Moon" else "soul in crossing"

/-- One narrative card line (src/main.py:170-172). -/
def cardLine (idx : Nat) (c : Card) : String :=
  c.symbol ++ " Card " ++ toString idx ++ ": " ++ c.name ++ " — " ++ c.meaning ++ ". " ++ c.whisper

/-- The 3-line hidden-card teaser block `hint` (src/main.py:174-178). -/
def hintText : String :=
  "It pulses behind the veil… holding a stronger destiny.\n" ++
  "A portal is opening… but it reveals itself only to those who dare to cross.\n" ++
  "The last card does not appear in public. I can reveal it ONLY inside the Portal…"

/-- The 2-option closing-hook pool of src/main.py:180-183, with
`random.choice` made an explicit Boolean. -/
def hookLine (b : Bool) : String :=
  if b then "Return tomorrow; I will feel new vibrations."
  else "Something new is coming… I will be here between the veils."

/-- The fixed preamble sentence that follows the address form inside
`whisper` (src/main.py:185-188), trailing newline included. -/
def preambleText : String :=
  "I see threads tightening and loosening around you — a design seeking your permission.\n"

/-- The first fixed CTA string (src/main.py:201). -/
def ctaText : String :=
  "Enter the Portal on WhatsApp to unveil the Hidden Card and receive a private ritual."

/-- The second fixed CTA string (src/main.py:202). -/
def ctaSubText : String :=
  "I can perform the lunar sweetening ritual to open your paths, but I need your permission…"

/-- Model of the Python join of lines with a newline separator. -/
def joinNL : List String → String
  | [] => ""
  | [x] => x
  | x :: y :: xs => x ++ "\n" ++ joinNL (y :: xs)

/-- src/main.py:165-205, `build_reading`: compose the narrative from the
chosen address form, one line per card (1-based `enumerate`), the teaser
block and the chosen hook, and attach the two CTA strings as separate
fields. -/
def build_reading (addrChoice hookChoice : Bool) (cards : List Card) : Reading :=
  let addressed := addressForm addrChoice
  let lines := cards.enum.map (fun p => cardLine (p.1 + 1) p.2)
  let hook := hookLine hookChoice
  let whisper := addressed ++ ", hear me: " ++ preambleText
  let text := joinNL ([whisper] ++ lines ++ ["\n" ++ hintText, "\n" ++ hook])
  { cards := cards, message := text, cta := ctaText, cta_sub := ctaSubText }

/-- src/main.py:208-211. -/
def FINAL_WARNING : String :=
  "If you do not act now, the veil will close. What was about to be revealed may be lost for entire cycles.\n" ++
  "Only with your energetic contribution can the portal remain open."

/-- src/main.py:213-215. -/
def FINAL_BLOCK : String :=
  "The Oracle has been sealed after 3 visions. To continue your journey, you must activate the full ritual through the energy exchange."

/-- src/main.py:217-219 (declared in the source, referenced by no route). -/
def FINAL_PORTAL : String :=
  "Child of the Moon… forcing the veils or acting with malice awakens the Shadow Return — a cycle of confusion, losses, and energetic disorder."

/-- One element of the alert-list response of `POST /api/read`
(src/main.py:227-229 and 236-238). -/
structure Alert where
  name : String
  description : String
deriving DecidableEq, Repr

/-- The two response shapes of `POST /api/read`: a list of alert objects
or a single reading object. -/
inductive ReadResponse where
  | alerts : List Alert → ReadResponse
  | reading : Reading → ReadResponse
deriving DecidableEq, Repr

/-- src/main.py:222-242, `read_cards`: pre-check the stored count,
return the warning alert at quota; otherwise increment, return the
sealed alert past quota, else draw 3 cards and build the reading.
`now`, `driverReturns` and the random draws/choices are explicit
parameters. -/
def read_cards (s : Store) (sid : String) (now : Nat) (driverReturns : Bool)
    (i j k : Nat) (addrChoice hookChoice : Bool) : ReadResponse × Store :=
  let total := get_session_count s sid
  if total ≥ 3 then
    (ReadResponse.alerts [{ name := "alert", description := FINAL_WARNING }], s)
  else
    let r := increment_session_count s sid now driverReturns
    if r.1 > 3 then
      (ReadResponse.alerts [{ name := "alert", description := FINAL_BLOCK }], r.2)
    else
      (ReadResponse.reading (build_reading addrChoice hookChoice (sample TAROT_DECK [i, j, k])),
        r.2)

/-- Variant of `read_cards` with its two atomic store interactions split across a
possibly different store: the pre-check `get_session_count` runs against
`s0`, the atomic `increment_session_count` against `s1`.  Under the
concurrency model of the spec each store primitive is atomic, so a concurrent
execution is an interleaving of primitives; `s1` is the store left by
requests that ran between the pre-check of this request and its increment.
With `s1 = s0` this is exactly `read_cards` (see
`read_cards_interleaved_eq`). -/
def read_cards_interleaved (s0 s1 : Store) (sid : String) (now : Nat) (driverReturns : Bool)
    (i j k : Nat) (addrChoice hookChoice : Bool) : ReadResponse × Store :=
  let total := get_session_count s0 sid
  if total ≥ 3 then
    (ReadResponse.alerts [{ name := "alert", description := FINAL_WARNING }], s1)
  else
    let r := increment_session_count s1 sid now driverReturns
    if r.1 > 3 then
      (ReadResponse.alerts [{ name := "alert", description := FINAL_BLOCK }], r.2)
    else
      (ReadResponse.reading (build_reading addrChoice hookChoice (sample TAROT_DECK [i, j, k])),
        r.2)

/-- n sequential calls to `POST /api/read` for the same session, with
per-call timestamps, driver behaviour and random choices supplied by the
functions; returns the final store. -/
def readN (sid : String) (nows : Nat → Nat) (drvs : Nat → Bool)
    (ri rj rk : Nat → Nat) (rAddr rHook : Nat → Bool) : Nat → Store → Store
  | 0, s => s
  | Nat.succ n, s =>
    (read_cards (readN sid nows drvs ri rj rk rAddr rHook n s) sid
      (nows n) (drvs n) (ri n) (rj n) (rk n) (rAddr n) (rHook n)).2

/-- n sequential calls to `activate` for the same session. -/
def activateN (sid : String) (nows : Nat → Nat) : Nat → Store → Store
  | 0, s => s
  | Nat.succ n, s => (activate (activateN sid nows n s) sid (nows n)).2

/-- n sequential calls to `increment_session_count` for the same
session: the list of returned counts, in call order, and the final
store. -/
def incSeq (sid : String) (nows : Nat → Nat) (drvs : Nat → Bool) :
    Nat → Store → List Int × Store
  | 0, s => ([], s)
  | Nat.succ n, s =>
    let p := incSeq sid nows drvs n s
    let q := increment_session_count p.2 sid (nows n) (drvs n)
    (p.1 ++ [q.1], q.2)

/-! Store lemmas. -/

theorem find_one_append_self (s : Store) (sid : String) (d : SessionDoc)
    (h : find_one s sid = none) : find_one (s ++ [(sid, d)]) sid = some d := by
  induction s with
  | nil => simp [find_one]
  | cons hd tl ih =>
    obtain ⟨k, d'⟩ := hd
    by_cases hk : k = sid
    · simp [find_one, hk] at h
    · simp only [find_one, if_neg hk] at h
      simpa only [List.cons_append, find_one, if_neg hk] using ih h

theorem find_one_append_other (s : Store) (sid sid2 : String) (d : SessionDoc)
    (h : sid2 ≠ sid) : find_one (s ++ [(sid, d)]) sid2 = find_one s sid2 := by
  induction s with
  | nil =>
    simp only [List.nil_append, find_one]
    rw [if_neg (fun hh => h hh.symm)]
  | cons hd tl ih =>
    obtain ⟨k, d'⟩ := hd
    by_cases hk : k = sid2
    · simp [find_one, hk]
    · simpa only [List.cons_append, find_one, if_neg hk] using ih

theorem find_one_updateFirst (s : Store) (sid : String) (f : SessionDoc → SessionDoc)
    (d : SessionDoc) (h : find_one s sid = some d) :
    find_one (updateFirst s sid f) sid = some (f d) := by
  induction s with
  | nil => simp [find_one] at h
  | cons hd tl ih =>
    obtain ⟨k, d'⟩ := hd
    by_cases hk : k = sid
    · simp only [find_one, if_pos hk, Option.some.injEq] at h
      simp [updateFirst, if_pos hk, find_one, h]
    · simp only [find_one, if_neg hk] at h
      simpa only [updateFirst, if_neg hk, find_one] using ih h

theorem increment_session_count_snd (s : Store) (sid : String) (now : Nat)
    (drv : Bool) :
    (increment_session_count s sid now drv).2 = (find_one_and_update s sid now).2 := rfl

/-- After an increment, the stored count read back for that session is
one more than before, whatever the document looked like. -/
theorem get_session_count_inc (s : Store) (sid : String) (now : Nat) (drv : Bool) :
    get_session_count (increment_session_count s sid now drv).2 sid
      = get_session_count s sid + 1 := by
  rw [increment_session_count_snd]
  unfold find_one_and_update
  cases hfo : find_one s sid with
  | none =>
    simp [get_session_count, hfo, find_one_append_self s sid _ hfo, insertedIncDoc]
  | some d =>
    simp [get_session_count, hfo, find_one_updateFirst s sid _ d hfo, applyIncUpdate]

/-- The value `increment_session_count` hands back is the new count,
with or without the driver returning the updated document. -/
theorem increment_session_count_fst (s : Store) (sid : String) (now : Nat) (drv : Bool) :
    (increment_session_count s sid now drv).1 = get_session_count s sid + 1 := by
  unfold increment_session_count find_one_and_update
  cases hfo : find_one s sid with
  | none =>
    cases drv <;>
      simp [increment_result_count, get_session_count, hfo,
        find_one_append_self s sid _ hfo, insertedIncDoc]
  | some d =>
    cases drv <;>
      simp [increment_result_count, get_session_count, hfo,
        find_one_updateFirst s sid _ d hfo, applyIncUpdate]

/-- Shared quota-branch lemma: at a stored count of 3 or more, the read
endpoint answers the warning alert and leaves the store untouched. -/
theorem read_cards_at_quota (s : Store) (sid : String) (now : Nat) (drv : Bool)
    (i j k : Nat) (ca ch : Bool) (h : 3 ≤ get_session_count s sid) :
    read_cards s sid now drv i j k ca ch
      = (ReadResponse.alerts [{ name := "alert", description := FINAL_WARNING }], s) := by
  unfold read_cards
  simp [h]

/-- Stored-count evolution of one read call. -/
theorem get_session_count_read (s : Store) (sid : String) (now : Nat) (drv : Bool)
    (i j k : Nat) (ca ch : Bool) :
    get_session_count (read_cards s sid now drv i j k ca ch).2 sid
      = if 3 ≤ get_session_count s sid then get_session_count s sid
        else get_session_count s sid + 1 := by
  unfold read_cards
  by_cases h : get_session_count s sid ≥ 3
  · simp [h]
  · by_cases h2 : (increment_session_count s sid now drv).1 > 3 <;>
      simp [h, h2, get_session_count_inc]

/-- Shared sequential-cap lemma: starting from a session with no record,
n sequential reads leave the stored count at `min n 3`. -/
theorem readN_count (sid : String) (nows : Nat → Nat) (drvs : Nat → Bool)
    (ri rj rk : Nat → Nat) (ra rh : Nat → Bool) (s : Store)
    (hfresh : find_one s sid = none) :
    ∀ n, get_session_count (readN sid nows drvs ri rj rk ra rh n s) sid = min (n : Int) 3 := by
  intro n
  induction n with
  | zero => simp [readN, get_session_count, hfresh]
  | succ n ih =>
    rw [readN, get_session_count_read, ih]
    split <;> rename_i hle <;> push_cast <;> omega

/-- Lemma: `activate` changes no stored count, for any session looked at. -/
theorem get_session_count_activate (s : Store) (sid : String) (now : Nat) (sid2 : String) :
    get_session_count (activate s sid now).2 sid2 = get_session_count s sid2 := by
  unfold activate
  cases hfo : find_one s sid with
  | some d => simp
  | none =>
    by_cases h2 : sid2 = sid
    · subst h2
      simp [get_session_count, hfo, find_one_append_self s sid2 _ hfo]
    · simp [get_session_count, find_one_append_other s sid sid2 _ h2]

/-- Counts returned by n sequential increments from a fresh session, and
the stored count they leave behind. -/
theorem incSeq_spec (sid : String) (nows : Nat → Nat) (drvs : Nat → Bool) (s : Store)
    (hfresh : find_one s sid = none) :
    ∀ n, (incSeq sid nows drvs n s).1 = (List.range n).map (fun m => (m : Int) + 1)
      ∧ get_session_count (incSeq sid nows drvs n s).2 sid = n := by
  intro n
  induction n with
  | zero => simp [incSeq, get_session_count, hfresh]
  | succ n ih =>
    refine ⟨?_, ?_⟩
    · rw [incSeq, increment_session_count_fst, ih.2, ih.1, List.range_succ]
      push_cast
      simp
    · rw [incSeq, get_session_count_inc, ih.2]
      push_cast
      ring

/-! Sampling lemmas. -/

theorem sample_length (idxs : List Nat) : ∀ deck : List Card,
    idxs.length ≤ deck.length → (sample deck idxs).length = idxs.length := by
  induction idxs with
  | nil => intro deck _; simp [sample]
  | cons i rest ih =>
    intro deck hlen
    match deck with
    | [] => simp at hlen
    | d :: ds =>
      have hn : i % (ds.length + 1) < ds.length + 1 := Nat.mod_lt _ (Nat.succ_pos _)
      have herase : ((d :: ds).eraseIdx (i % (ds.length + 1))).length = ds.length := by
        rw [List.length_eraseIdx]
        simp only [List.length_cons]
        rw [if_pos hn]
        simp
      simp only [sample, List.length_cons]
      rw [ih _ (by rw [herase]; simpa using hlen)]

theorem sample_subset (idxs : List Nat) : ∀ deck : List Card,
    ∀ c ∈ sample deck idxs, c ∈ deck := by
  induction idxs with
  | nil => intro deck c hc; simp [sample] at hc
  | cons i rest ih =>
    intro deck c hc
    match deck with
    | [] => simp [sample] at hc
    | d :: ds =>
      have hn : i % (d :: ds).length < (d :: ds).length :=
        Nat.mod_lt _ (by simp [Nat.succ_pos])
      simp only [sample, List.mem_cons] at hc
      rcases hc with hc | hc
      · rw [hc, List.getD_eq_getElem _ _ hn]
        exact List.getElem_mem hn
      · exact (List.eraseIdx_sublist (d :: ds) _).mem (ih _ c hc)

theorem getD_not_mem_eraseIdx {α : Type} [DecidableEq α] (l : List α) (hnd : l.Nodup)
    (n : Nat) (hna : n < l.length) (d : α) : l.getD n d ∉ l.eraseIdx n := by
  rw [List.getD_eq_getElem l d hna, ← hnd.erase_getElem n hna]
  exact hnd.not_mem_erase

theorem sample_nodup (idxs : List Nat) : ∀ deck : List Card,
    deck.Nodup → (sample deck idxs).Nodup := by
  induction idxs with
  | nil => intro deck _; simp [sample]
  | cons i rest ih =>
    intro deck hnd
    match deck with
    | [] => simp [sample]
    | d :: ds =>
      have hn : i % (d :: ds).length < (d :: ds).length :=
        Nat.mod_lt _ (by simp [Nat.succ_pos])
      simp only [sample, List.nodup_cons]
      constructor
      · intro hmem
        exact getD_not_mem_eraseIdx (d :: ds) hnd _ hn d (sample_subset rest _ _ hmem)
      · exact ih _ ((List.eraseIdx_sublist (d :: ds) _).nodup hnd)

theorem tarot_deck_nodup : TAROT_DECK.Nodup := by decide

theorem tarot_deck_length : TAROT_DECK.length = 8 := rfl

/-! Claim theorems. -/

/-- C1: for every session whose stored count is at least 3, the reading
endpoint returns the one-element alert list carrying FINAL_WARNING and
performs no state mutation: the returned store is the input store, so
the stored count and the rest of the session record are unchanged. -/
theorem read_at_quota_warns_and_mutates_nothing (s : Store) (sid : String)
    (now : Nat) (drv : Bool) (i j k : Nat) (ca ch : Bool)
    (h : 3 ≤ get_session_count s sid) :
    read_cards s sid now drv i j k ca ch
      = (ReadResponse.alerts [{ name := "alert", description := FINAL_WARNING }], s) :=
  read_cards_at_quota s sid now drv i j k ca ch h

/-- Witness for C1 at a concrete store holding a count of 3. -/
theorem read_at_quota_warns_and_mutates_nothing_witness :
    3 ≤ get_session_count
        [("s", { count := some 3, created_at := some 0, updated_at := some 0 })] "s"
    ∧ read_cards [("s", { count := some 3, created_at := some 0, updated_at := some 0 })]
        "s" 7 true 0 1 2 true false
      = (ReadResponse.alerts [{ name := "alert", description := FINAL_WARNING }],
         [("s", { count := some 3, created_at := some 0, updated_at := some 0 })]) :=
  ⟨by decide,
   read_at_quota_warns_and_mutates_nothing
     [("s", { count := some 3, created_at := some 0, updated_at := some 0 })]
     "s" 7 true 0 1 2 true false (by decide)⟩

/-- C9: for a session identifier with no stored record, ReadQuery
returns 0.  That `get_session_count` performs no state change is the
type of the embedding: it consumes the store and returns only the count. -/
theorem readquery_unseen_returns_zero (s : Store) (sid : String)
    (h : find_one s sid = none) : get_session_count s sid = 0 := by
  simp [get_session_count, h]

/-- Witness for C9 on the empty store. -/
theorem readquery_unseen_returns_zero_witness :
    find_one ([] : Store) "x" = none ∧ get_session_count [] "x" = 0 :=
  ⟨rfl, readquery_unseen_returns_zero [] "x" rfl⟩

/-- C8: activate is idempotent and never increments: on an unseen
session it creates the record at count 0 with both timestamps; on a
session that already has a record it changes no state; any number of
sequential activations of a fresh session leaves ReadQuery at 0; and the
response is always the fixed acknowledgment. -/
theorem activate_idempotent_never_increments :
    (∀ (s : Store) (sid : String) (now : Nat), find_one s sid = none →
        activate s sid now
          = (activateAck,
             s ++ [(sid, { count := some 0, created_at := some now, updated_at := some now })]))
    ∧ (∀ (s : Store) (sid : String) (now : Nat) (d : SessionDoc),
        find_one s sid = some d → activate s sid now = (activateAck, s))
    ∧ (∀ (s : Store) (sid : String) (nows : Nat → Nat) (n : Nat), find_one s sid = none →
        get_session_count (activateN sid nows n s) sid = 0)
    ∧ (∀ (s : Store) (sid : String) (now : Nat), (activate s sid now).1 = activateAck) := by
  refine ⟨?_, ?_, ?_, ?_⟩
  · intro s sid now h
    unfold activate
    rw [h]
  · intro s sid now d h
    unfold activate
    rw [h]
  · intro s sid nows n h
    induction n with
    | zero => simp [activateN, get_session_count, h]
    | succ n ih =>
      rw [activateN, get_session_count_activate]
      exact ih
  · intro s sid now
    unfold activate
    cases find_one s sid <;> rfl

/-- Witness for C8: creation on a fresh store, idempotence on an
existing record, and three activations leaving the count at 0. -/
theorem activate_idempotent_never_increments_witness :
    activate [] "a" 5
      = (activateAck, [("a", { count := some 0, created_at := some 5, updated_at := some 5 })])
    ∧ activate [("a", { count := some 2, created_at := some 1, updated_at := some 1 })] "a" 9
      = (activateAck, [("a", { count := some 2, created_at := some 1, updated_at := some 1 })])
    ∧ get_session_count (activateN "a" (fun _ => 1) 3 []) "a" = 0 :=
  ⟨activate_idempotent_never_increments.1 [] "a" 5 rfl,
   activate_idempotent_never_increments.2.1 _ "a" 9 _ rfl,
   activate_idempotent_never_increments.2.2.1 [] "a" (fun _ => 1) 3 rfl⟩

/-- C4: starting from an unseen session, n sequential ReadAndIncrement
calls return 1, 2, ..., n in order (no gaps, no repeats), and leave the
stored count at n: the first call creates the record at count 1, each
later call adds exactly 1. -/
theorem increment_sequence_one_to_n (sid : String) (nows : Nat → Nat) (drvs : Nat → Bool)
    (s : Store) (hfresh : find_one s sid = none) (n : Nat) :
    (incSeq sid nows drvs n s).1 = (List.range n).map (fun m => (m : Int) + 1)
    ∧ get_session_count (incSeq sid nows drvs n s).2 sid = n :=
  incSeq_spec sid nows drvs s hfresh n

/-- Witness for C4: four increments from the empty store return
1, 2, 3, 4 and leave the count at 4. -/
theorem increment_sequence_one_to_n_witness :
    (incSeq "a" (fun m => m) (fun m => decide (m % 2 = 0)) 4 []).1 = [1, 2, 3, 4]
    ∧ get_session_count (incSeq "a" (fun m => m) (fun m => decide (m % 2 = 0)) 4 []).2 "a" = 4 := by
  have h := increment_sequence_one_to_n "a" (fun m => m) (fun m => decide (m % 2 = 0)) [] rfl 4
  exact ⟨h.1.trans (by decide), by exact_mod_cast h.2⟩

/-- C5: when the driver reports no result for the atomic increment, the
fallback plain read recovers exactly the count the normal path would
return (first conjunct: the whole operation is unchanged), and the
recovery of src/main.py:98-101 returns the read-back count, or 1 when
the readback yields no document or a document without a count; being a
total function, it raises nothing. -/
theorem increment_fallback_semantics :
    (∀ (s : Store) (sid : String) (now : Nat),
        increment_session_count s sid now false = increment_session_count s sid now true)
    ∧ increment_result_count none none = 1
    ∧ (∀ d : SessionDoc, d.count = none → increment_result_count none (some d) = 1)
    ∧ (∀ (d : SessionDoc) (c : Int), d.count = some c → increment_result_count none (some d) = c) := by
  refine ⟨?_, rfl, ?_, ?_⟩
  · intro s sid now
    have h1 : (increment_session_count s sid now false).1
        = (increment_session_count s sid now true).1 := by
      rw [increment_session_count_fst, increment_session_count_fst]
    have h2 : (increment_session_count s sid now false).2
        = (increment_session_count s sid now true).2 := rfl
    exact Prod.ext h1 h2
  · intro d h
    simp [increment_result_count, h]
  · intro d c h
    simp [increment_result_count, h]

/-- Witness for C5: the fallback path agrees with the normal path on a
concrete store, and the degenerate readbacks default as stated. -/
theorem increment_fallback_semantics_witness :
    increment_session_count [("a", { count := some 1, created_at := none, updated_at := none })]
        "a" 4 false
      = increment_session_count [("a", { count := some 1, created_at := none, updated_at := none })]
        "a" 4 true
    ∧ increment_result_count none (some { count := none, created_at := none, updated_at := none }) = 1
    ∧ increment_result_count none (some { count := some 5, created_at := none, updated_at := none }) = 5 :=
  ⟨increment_fallback_semantics.1 _ "a" 4,
   increment_fallback_semantics.2.2.1 _ rfl,
   increment_fallback_semantics.2.2.2 _ 5 rfl⟩

/-- No-interference instance: when nothing runs between the pre-check
and the increment, the split handler is the handler of the source. -/
theorem read_cards_interleaved_eq (s : Store) (sid : String) (now : Nat) (drv : Bool)
    (i j k : Nat) (ca ch : Bool) :
    read_cards_interleaved s s sid now drv i j k ca ch
      = read_cards s sid now drv i j k ca ch := rfl

/-- C2: the stored count never decreases under a read call; activate
never changes any stored count, so the count moves only through the
increment inside the read endpoint; from a fresh session, n sequential
read calls leave the count at min(n, 3), so it never exceeds 3 and is 3
after the 3rd; and every call after the 3rd returns the warning alert
list and leaves the count at 3. -/
theorem count_monotone_and_capped (sid : String) (nows : Nat → Nat) (drvs : Nat → Bool)
    (ri rj rk : Nat → Nat) (ra rh : Nat → Bool) (s : Store)
    (hfresh : find_one s sid = none) :
    (∀ (s' : Store) (now : Nat) (drv : Bool) (i j k : Nat) (ca ch : Bool),
        get_session_count s' sid
          ≤ get_session_count (read_cards s' sid now drv i j k ca ch).2 sid)
    ∧ (∀ (s' : Store) (sid' : String) (now : Nat),
        get_session_count (activate s' sid' now).2 sid = get_session_count s' sid)
    ∧ (∀ n, get_session_count (readN sid nows drvs ri rj rk ra rh n s) sid = min (n : Int) 3)
    ∧ (∀ n, 3 ≤ n →
        read_cards (readN sid nows drvs ri rj rk ra rh n s) sid
            (nows n) (drvs n) (ri n) (rj n) (rk n) (ra n) (rh n)
          = (ReadResponse.alerts [{ name := "alert", description := FINAL_WARNING }],
             readN sid nows drvs ri rj rk ra rh n s)
        ∧ get_session_count (readN sid nows drvs ri rj rk ra rh n s) sid = 3) := by
  refine ⟨?_, ?_, readN_count sid nows drvs ri rj rk ra rh s hfresh, ?_⟩
  · intro s' now drv i j k ca ch
    rw [get_session_count_read]
    split <;> omega
  · intro s' sid' now
    exact get_session_count_activate s' sid' now sid
  · intro n hn
    have hcount : get_session_count (readN sid nows drvs ri rj rk ra rh n s) sid = 3 := by
      rw [readN_count sid nows drvs ri rj rk ra rh s hfresh n]
      omega
    exact ⟨read_cards_at_quota _ sid _ _ _ _ _ _ _ (by rw [hcount]), hcount⟩

/-- Witness for C2: from the empty store, two reads leave the count at
2, and the call after the 3rd read answers the warning alert with the
count still 3. -/
theorem count_monotone_and_capped_witness :
    get_session_count
        (readN "s" (fun _ => 0) (fun _ => true) (fun _ => 0) (fun _ => 0) (fun _ => 0)
          (fun _ => true) (fun _ => true) 2 []) "s" = 2
    ∧ read_cards
        (readN "s" (fun _ => 0) (fun _ => true) (fun _ => 0) (fun _ => 0) (fun _ => 0)
          (fun _ => true) (fun _ => true) 4 []) "s" 0 true 0 0 0 true true
      = (ReadResponse.alerts [{ name := "alert", description := FINAL_WARNING }],
         readN "s" (fun _ => 0) (fun _ => true) (fun _ => 0) (fun _ => 0) (fun _ => 0)
           (fun _ => true) (fun _ => true) 4 []) := by
  have h := count_monotone_and_capped "s" (fun _ => 0) (fun _ => true) (fun _ => 0) (fun _ => 0)
    (fun _ => 0) (fun _ => true) (fun _ => true) [] rfl
  refine ⟨(h.2.2.1 2).trans (by decide), ?_⟩
  have h4 := h.2.2.2 4 (by omega)
  exact h4.1

/-- C3: whenever the pre-check sees a count below 3 on the store `s0` it
ran against, but the atomic increment — run against the store `s1` left
by requests interleaved between the two primitives — yields a count
above 3, the endpoint answers the one-element FINAL_BLOCK alert list and
produces no reading payload (no cards are drawn). -/
theorem sealed_branch_blocks (s0 s1 : Store) (sid : String) (now : Nat) (drv : Bool)
    (i j k : Nat) (ca ch : Bool)
    (hpre : get_session_count s0 sid < 3)
    (hpost : (increment_session_count s1 sid now drv).1 > 3) :
    read_cards_interleaved s0 s1 sid now drv i j k ca ch
      = (ReadResponse.alerts [{ name := "alert", description := FINAL_BLOCK }],
         (increment_session_count s1 sid now drv).2) := by
  unfold read_cards_interleaved
  have h1 : ¬ (get_session_count s0 sid ≥ 3) := by omega
  simp only [h1, if_false, hpost, if_true]

/-- Witness for C3: the pre-check ran before a racing request filled the
quota; the increment then lands on a count of 4. -/
theorem sealed_branch_blocks_witness :
    get_session_count [] "x" < 3
    ∧ (increment_session_count
        [("x", { count := some 3, created_at := none, updated_at := none })] "x" 0 true).1 > 3
    ∧ read_cards_interleaved []
        [("x", { count := some 3, created_at := none, updated_at := none })] "x" 0 true 0 0 0 true true
      = (ReadResponse.alerts [{ name := "alert", description := FINAL_BLOCK }],
         (increment_session_count
           [("x", { count := some 3, created_at := none, updated_at := none })] "x" 0 true).2) :=
  ⟨by decide, by decide,
   sealed_branch_blocks []
     [("x", { count := some 3, created_at := none, updated_at := none })]
     "x" 0 true 0 0 0 true true (by decide) (by decide)⟩

/-- C6: an under-quota request (pre-check count below 3, incremented
count at most 3) answers a single `Reading` object — whose type carries
exactly the fields `cards`, `message`, `cta`, `cta_sub` — with exactly 3
cards, pairwise distinct, all from the fixed 8-entry deck. -/
theorem under_quota_reading_shape (s : Store) (sid : String) (now : Nat) (drv : Bool)
    (i j k : Nat) (ca ch : Bool)
    (hpre : get_session_count s sid < 3)
    (hpost : (increment_session_count s sid now drv).1 ≤ 3) :
    ∃ rd : Reading,
      read_cards s sid now drv i j k ca ch
        = (ReadResponse.reading rd, (increment_session_count s sid now drv).2)
      ∧ rd.cards.length = 3
      ∧ List.Pairwise (fun a b => a ≠ b) rd.cards
      ∧ ∀ c ∈ rd.cards, c ∈ TAROT_DECK := by
  refine ⟨build_reading ca ch (sample TAROT_DECK [i, j, k]), ?_, ?_, ?_, ?_⟩
  · unfold read_cards
    have h1 : ¬ (get_session_count s sid ≥ 3) := by omega
    have h2 : ¬ ((increment_session_count s sid now drv).1 > 3) := by omega
    simp only [h1, if_false, h2, if_true]
  · exact sample_length [i, j, k] TAROT_DECK (by rw [tarot_deck_length]; simp)
  · exact sample_nodup [i, j, k] TAROT_DECK tarot_deck_nodup
  · exact sample_subset [i, j, k] TAROT_DECK

/-- Witness for C6 on a fresh session. -/
theorem under_quota_reading_shape_witness :
    get_session_count [] "a" < 3
    ∧ (increment_session_count [] "a" 0 true).1 ≤ 3
    ∧ ∃ rd : Reading,
        read_cards [] "a" 0 true 1 2 3 true true
          = (ReadResponse.reading rd, (increment_session_count [] "a" 0 true).2)
        ∧ rd.cards.length = 3
        ∧ List.Pairwise (fun a b => a ≠ b) rd.cards
        ∧ ∀ c ∈ rd.cards, c ∈ TAROT_DECK :=
  ⟨by decide, by decide,
   under_quota_reading_shape [] "a" 0 true 1 2 3 true true (by decide) (by decide)⟩

/-- C10: neither endpoint validates `session_id`: `activate` returns its
fixed acknowledgment for every string, the empty string included; reads
under the empty string proceed through the ordinary counter (count
min(n, 3) after n reads of one shared record); and after any 3 reads
under the empty string, a further read with any other timestamp, driver
behaviour or random choices — i.e. from any other caller — hits the same
quota and gets the warning alert: all such callers share one session
record. -/
theorem empty_session_id_shared_quota :
    (∀ (s : Store) (now : Nat), (activate s "" now).1 = activateAck)
    ∧ (∀ (s : Store) (sid : String) (now : Nat), (activate s sid now).1 = activateAck)
    ∧ (∀ (nows : Nat → Nat) (drvs : Nat → Bool) (ri rj rk : Nat → Nat) (ra rh : Nat → Bool)
        (n : Nat),
        get_session_count (readN "" nows drvs ri rj rk ra rh n []) "" = min (n : Int) 3)
    ∧ (∀ (nows : Nat → Nat) (drvs : Nat → Bool) (ri rj rk : Nat → Nat) (ra rh : Nat → Bool)
        (now2 : Nat) (drv2 : Bool) (i2 j2 k2 : Nat) (a2 h2 : Bool),
        read_cards (readN "" nows drvs ri rj rk ra rh 3 []) "" now2 drv2 i2 j2 k2 a2 h2
          = (ReadResponse.alerts [{ name := "alert", description := FINAL_WARNING }],
             readN "" nows drvs ri rj rk ra rh 3 [])) := by
  have hact : ∀ (s : Store) (sid : String) (now : Nat), (activate s sid now).1 = activateAck := by
    intro s sid now
    unfold activate
    cases find_one s sid <;> rfl
  refine ⟨fun s now => hact s "" now, hact, ?_, ?_⟩
  · intro nows drvs ri rj rk ra rh n
    exact readN_count "" nows drvs ri rj rk ra rh [] rfl n
  · intro nows drvs ri rj rk ra rh now2 drv2 i2 j2 k2 a2 h2
    apply read_cards_at_quota
    rw [readN_count "" nows drvs ri rj rk ra rh [] rfl 3]
    decide

/-- The card-line format exactly as the claim words it:
`<symbol> Card <1-based index>: <name> — <meaning>. <whisper>`. -/
def specCardLine (idx : Nat) (c : Card) : String :=
  c.symbol ++ " Card " ++ toString idx ++ ": " ++ c.name ++ " — " ++ c.meaning ++ ". " ++ c.whisper

/-- The narrative laid out as the claim describes it, in order: the
address line (chosen address form, then the fixed preamble sentence);
one line per card; the fixed 3-line hidden-card teaser block; the chosen
closing hook line.  Written independently of the `enumerate` and join assembly of `build_reading`, to be compared with it. -/
def specNarrative (ca ch : Bool) (c1 c2 c3 : Card) : String :=
  (addressForm ca ++ ", hear me: " ++ preambleText) ++ "\n"
    ++ (specCardLine 1 c1 ++ "\n" ++ specCardLine 2 c2 ++ "\n" ++ specCardLine 3 c3) ++ "\n"
    ++ ("\n" ++ hintText) ++ "\n"
    ++ ("\n" ++ hookLine ch)

/-- C7: for every 3 drawn cards and both choices from each 2-option
pool, the composed payload is exactly: the narrative in the claimed
order (address line with the fixed preamble, one formatted line per
card, the 3-line teaser block, the closing hook), with the two fixed CTA
strings carried in the separate `cta` / `cta_sub` fields — the closed
form of the narrative contains no CTA component. -/
theorem narrative_layout (ca ch : Bool) (c1 c2 c3 : Card) :
    build_reading ca ch [c1, c2, c3]
      = { cards := [c1, c2, c3], message := specNarrative ca ch c1 c2 c3,
          cta := ctaText, cta_sub := ctaSubText } := by
  simp only [build_reading, Reading.mk.injEq]
  refine ⟨trivial, ?_, trivial, trivial⟩
  simp only [List.enum, List.enumFrom, List.map, joinNL, specNarrative, specCardLine, cardLine,
    List.cons_append, List.nil_append, List.singleton_append]
  simp [String.append_assoc]

end Oracle
